import Mathlib

/-!
# aps-3lo-linux-gtk-gdbus: a shallow embedding of `src/main.cpp`

The program is a single-instance GTK demo.  A launch takes a file lock on a
fixed path; the winner opens a window and serves one D-Bus method, every other
launch forwards `argv[1]` to the winner over the session bus and exits.

The embedding follows `src/main.cpp` function by function:

* C strings are byte lists (the bytes before the terminating NUL);
* `printf`-style formatting is modelled for the two directives the source
  uses, `%s` and `%%`;
* `lockf` acts on an explicit lock state (free, or held by one process id);
* calls into GLib/GTK/the OS are recorded as a trace of `Action`s, and what
  the outside world answers is read from a `World` record.
-/

namespace ApsShellDemo

set_option maxRecDepth 100000

/-! ## C strings -/

/-- Bytes of a C string, without the terminating NUL. -/
abbrev CStr := List UInt8

/-- Bytes (UTF-8) of a string literal of the source. -/
def cstr (s : String) : CStr := s.data.flatMap String.utf8EncodeChar

/-- C library `strcmp` on unsigned bytes: zero, negative or positive. -/
def strcmp : CStr → CStr → Int
  | [], [] => 0
  | [], _ :: _ => -1
  | _ :: _, [] => 1
  | a :: as, b :: bs => if a = b then strcmp as bs else if a < b then -1 else 1

/-- GLib `g_strcmp0`: `strcmp` that also accepts NULL (`none`), NULL sorting first. -/
def g_strcmp0 : Option CStr → Option CStr → Int
  | none, none => 0
  | none, some _ => -1
  | some _, none => 1
  | some a, some b => strcmp a b

/-- Output of a `printf`-style format, for the directives used in `main.cpp`:
`%%` writes one `%`, `%s` writes the next string argument, every other byte of
the format is copied.  Any other directive, or a missing argument, is `none`. -/
def vformat : List Char → List CStr → Option CStr
  | [], _ => some []
  | '%' :: '%' :: rest, args => (vformat rest args).map (fun r => 37 :: r)
  | '%' :: 's' :: rest, a :: args => (vformat rest args).map (fun r => a ++ r)
  | '%' :: _, _ => none
  | c :: rest, args => (vformat rest args).map (fun r => String.utf8EncodeChar c ++ r)

/-- C library `sprintf` into a buffer of `size` bytes.  The output and its
terminating NUL must fit; writing past the buffer is undefined behaviour,
modelled as `none`. -/
def sprintf (size : Nat) (fmt : String) (args : List CStr) : Option CStr :=
  match vformat fmt.data args with
  | none => none
  | some out => if out.length + 1 ≤ size then some out else none

/-- C library `snprintf(buffer, n, fmt, ...)`: at most `n - 1` bytes of the
output are stored, followed by NUL. -/
def snprintf (n : Nat) (fmt : String) (args : List CStr) : Option CStr :=
  (vformat fmt.data args).map (fun out => out.take (n - 1))

/-! ## Constants of `main.cpp` (lines 16-50) -/

/-- Authentication format string (lines 16-19). -/
def authAddressFMT : String :=
  "https://developer.api.autodesk.com/authentication/v2/authorize?response_type=code" ++
  "&client_id=%s" ++
  "&redirect_uri=apsshelldemo://oauth" ++
  "&scope=data:read%%20data:create%%20data:write"

def dbus_object_path : String := "/das/apsshelldemo/object"
def dbus_interface_name : String := "das.apsshelldemo"
def dbus_method_name : String := "doOAuth"
def dbus_well_known_name : String := "das.apshelldemo.dbusserver"

/-- The array `char empty[] = ""` (line 27). -/
def empty : CStr := cstr ""

/-- The XML that defines the method interface (lines 43-50). -/
def introspection_xml : String :=
  "<node>" ++
  "<interface name='das.apsshelldemo'>" ++
  "<method name='doOAuth'>" ++
  "<arg name='message' type='s' direction='in'/>" ++
  "</method>" ++
  "</interface>" ++
  "</node>"

/-! ## The D-Bus method handler (lines 53-77) -/

/-- The variants the program builds and reads: a tuple of one string, type
`(s)`.  GDBus checks the signature of an incoming call against the registered
interface before it dispatches to the handler. -/
inductive GVariant where
  | tupleS (s : CStr)
  deriving DecidableEq, Repr

/-- Type string of a variant. -/
def GVariant.typeString : GVariant → String
  | .tupleS _ => "(s)"

/-- Type string of a `g_variant_new`/`g_variant_get` format: the `&` marks
(borrow the string instead of copying it) are not part of the type. -/
def formatTypeString (fmt : String) : String :=
  String.mk (fmt.data.filter (fun c => c ≠ '&'))

/-- Scanner behind `g_utf8_validate`: `need` continuation bytes are still due,
the next of them within `lo..hi`; afterwards they are within `0x80..0xBF`. -/
def utf8Scan : Nat → UInt8 → UInt8 → CStr → Bool
  | 0, _, _, [] => true
  | _ + 1, _, _, [] => false
  | 0, _, _, b :: rest =>
    if b < 0x80 then utf8Scan 0 0x80 0xBF rest
    else if 0xC2 ≤ b ∧ b ≤ 0xDF then utf8Scan 1 0x80 0xBF rest
    else if b = 0xE0 then utf8Scan 2 0xA0 0xBF rest
    else if b = 0xED then utf8Scan 2 0x80 0x9F rest
    else if 0xE1 ≤ b ∧ b ≤ 0xEF then utf8Scan 2 0x80 0xBF rest
    else if b = 0xF0 then utf8Scan 3 0x90 0xBF rest
    else if 0xF1 ≤ b ∧ b ≤ 0xF3 then utf8Scan 3 0x80 0xBF rest
    else if b = 0xF4 then utf8Scan 3 0x80 0x8F rest
    else false
  | n + 1, lo, hi, b :: rest =>
    if lo ≤ b ∧ b ≤ hi then utf8Scan n 0x80 0xBF rest else false

/-- GLib `g_utf8_validate(str, -1, NULL)`: is the C string well-formed UTF-8
(no overlong form, no surrogate, nothing above U+10FFFF)? -/
def g_utf8_validate (str : CStr) : Bool := utf8Scan 0 0x80 0xBF str

/-- GLib `g_variant_new(format, str)` for a format of type `(s)`.  The string
child is made by `g_variant_new_string`, which refuses a string that is not
valid UTF-8; `g_variant_new` then stores the text `[Invalid UTF-8]` in its
place. -/
def g_variant_new (format : String) (str : CStr)
    (_h : formatTypeString format = "(s)") : GVariant :=
  if g_utf8_validate str then .tupleS str else .tupleS (cstr "[Invalid UTF-8]")

/-- GLib `g_variant_get(parameters, format, &message)` for a format whose type
is the type of `parameters`: the string child. -/
def g_variant_get (parameters : GVariant) (format : String)
    (_h : formatTypeString format = parameters.typeString) : CStr :=
  match parameters with
  | .tupleS s => s

/-- What the handler can touch in the primary: the text of the label held in
`UserData`, and the log of values returned on method invocations (an
invocation is named by a number; `none` is the NULL return value). -/
structure PrimaryState where
  label : CStr
  returned : List (Nat × Option GVariant)
  deriving DecidableEq, Repr

/-- The call `gtk_label_set_text(label, message)`. -/
def gtk_label_set_text (st : PrimaryState) (message : CStr) : PrimaryState :=
  { st with label := message }

/-- The call `g_dbus_method_invocation_return_value(invocation, value)`. -/
def g_dbus_method_invocation_return_value (st : PrimaryState) (invocation : Nat)
    (value : Option GVariant) : PrimaryState :=
  { st with returned := st.returned ++ [(invocation, value)] }

/-- The handler `handle_method_call` (lines 53-77).  The arguments it never
reads (connection, sender, object path, interface name) are left out;
`user_data` is the `PrimaryState`. -/
def handle_method_call (method_name : CStr) (parameters : GVariant) (invocation : Nat)
    (user_data : PrimaryState) : PrimaryState :=
  let st :=
    if g_strcmp0 (some method_name) (some (cstr dbus_method_name)) = 0 then
      let message := g_variant_get parameters "(&s)"
        (by cases parameters; exact (by decide : formatTypeString "(&s)" = "(s)"))
      if g_strcmp0 (some message) (some (cstr "Return Unregistered")) = 0 ∨
          g_strcmp0 (some message) (some (cstr "Return Registered")) = 0 ∨
          g_strcmp0 (some message) (some (cstr "Return Raw")) = 0 then
        user_data
      else
        gtk_label_set_text user_data message
    else
      user_data
  g_dbus_method_invocation_return_value st invocation none

/-! ## The button callback (lines 89-100) and the initial label (lines 152-163) -/

/-- The callback `on_button_clicked`: the URI handed to `gtk_show_uri_on_window`.
The argument is the result of `getenv("APS_CLIENT_ID")`. -/
def on_button_clicked (getenv : Option CStr) : Option CStr :=
  let env := match getenv with
    | none => empty
    | some e => e
  snprintf 1024 authAddressFMT [env]

/-- The text given to `gtk_label_new` in `on_app_activate` (lines 152-163),
written with `sprintf` into `char buffer[256]`. -/
def on_app_activate_label (getenv : Option CStr) : Option CStr :=
  match getenv with
  | none => sprintf 256 "You need to set APS_CLIENT_ID in your environment variables." []
  | some env => sprintf 256 "CLIENT ID:%s" [env]

/-! ## Introspection data (line 175) -/

/-- One argument of a method: its name and its D-Bus type signature. -/
structure ArgInfo where
  name : String
  signature : String
  deriving DecidableEq, Repr

/-- One method of an interface. -/
structure MethodInfo where
  name : String
  in_args : List ArgInfo
  out_args : List ArgInfo
  deriving DecidableEq, Repr

/-- One interface of a node. -/
structure InterfaceInfo where
  name : String
  methods : List MethodInfo
  deriving DecidableEq, Repr

/-- The result of `g_dbus_node_info_new_for_xml`. -/
structure NodeInfo where
  interfaces : List InterfaceInfo
  deriving DecidableEq, Repr

/-- One markup tag: `<name k='v' ...>`, `</name>` or `<name k='v' .../>`. -/
structure XmlTag where
  closing : Bool
  selfClosing : Bool
  name : String
  attrs : List (String × String)
  deriving DecidableEq, Repr

/-- States of the tag scanner. -/
inductive LexState where
  | text
  | tagName (closing : Bool) (acc : List Char)
  | inTag (closing : Bool) (name : String) (attrs : List (String × String))
  | attrName (closing : Bool) (name : String) (attrs : List (String × String)) (acc : List Char)
  | attrQuote (closing : Bool) (name : String) (attrs : List (String × String)) (key : String)
  | attrValue (closing : Bool) (name : String) (attrs : List (String × String)) (key : String)
      (quote : Char) (acc : List Char)
  | slash (name : String) (attrs : List (String × String))

/-- Scanner for the markup subset used by D-Bus introspection documents:
tags with quoted attributes; character data between tags is skipped. -/
def lexXml : LexState → List Char → Option (List XmlTag)
  | .text, [] => some []
  | _, [] => none
  | .text, c :: cs => if c = '<' then lexXml (.tagName false []) cs else lexXml .text cs
  | .tagName closing acc, c :: cs =>
    if c = '/' ∧ acc = [] ∧ closing = false then lexXml (.tagName true []) cs
    else if c = '>' then
      (lexXml .text cs).map (fun ts => ⟨closing, false, String.mk acc.reverse, []⟩ :: ts)
    else if c = '/' then lexXml (.slash (String.mk acc.reverse) []) cs
    else if c = ' ' then lexXml (.inTag closing (String.mk acc.reverse) []) cs
    else lexXml (.tagName closing (c :: acc)) cs
  | .inTag closing name attrs, c :: cs =>
    if c = ' ' then lexXml (.inTag closing name attrs) cs
    else if c = '>' then (lexXml .text cs).map (fun ts => ⟨closing, false, name, attrs⟩ :: ts)
    else if c = '/' then lexXml (.slash name attrs) cs
    else lexXml (.attrName closing name attrs [c]) cs
  | .attrName closing name attrs acc, c :: cs =>
    if c = '=' then lexXml (.attrQuote closing name attrs (String.mk acc.reverse)) cs
    else lexXml (.attrName closing name attrs (c :: acc)) cs
  | .attrQuote closing name attrs key, c :: cs =>
    if c = Char.ofNat 39 ∨ c = Char.ofNat 34 then lexXml (.attrValue closing name attrs key c []) cs else none
  | .attrValue closing name attrs key quote acc, c :: cs =>
    if c = quote then lexXml (.inTag closing name (attrs ++ [(key, String.mk acc.reverse)])) cs
    else lexXml (.attrValue closing name attrs key quote (c :: acc)) cs
  | .slash name attrs, c :: cs =>
    if c = '>' then (lexXml .text cs).map (fun ts => ⟨false, true, name, attrs⟩ :: ts) else none

/-- Value of an attribute of a tag. -/
def XmlTag.attr (t : XmlTag) (key : String) : Option String :=
  (t.attrs.find? (fun kv => kv.1 = key)).map (fun kv => kv.2)

/-- Where the introspection reader is in the document. -/
inductive ParseState where
  | start
  | node (ifs : List InterfaceInfo)
  | iface (ifs : List InterfaceInfo) (cur : InterfaceInfo)
  | method (ifs : List InterfaceInfo) (cur : InterfaceInfo) (m : MethodInfo)
  | finished (ifs : List InterfaceInfo)

/-- Reader of introspection documents made of `node`, `interface`, `method`
and `arg` elements.  An `arg` of a method without a `direction` is an input. -/
def parseTags : ParseState → List XmlTag → Option NodeInfo
  | .finished ifs, [] => some ⟨ifs⟩
  | _, [] => none
  | .start, t :: ts =>
    if t.name = "node" ∧ t.closing = false ∧ t.selfClosing = false then parseTags (.node []) ts
    else none
  | .node ifs, t :: ts =>
    if t.name = "node" ∧ t.closing = true then parseTags (.finished ifs) ts
    else if t.name = "interface" ∧ t.closing = false ∧ t.selfClosing = false then
      match t.attr "name" with
      | some n => parseTags (.iface ifs ⟨n, []⟩) ts
      | none => none
    else none
  | .iface ifs cur, t :: ts =>
    if t.name = "interface" ∧ t.closing = true then parseTags (.node (ifs ++ [cur])) ts
    else if t.name = "method" ∧ t.closing = false then
      match t.attr "name" with
      | some n =>
        if t.selfClosing = true then
          parseTags (.iface ifs { cur with methods := cur.methods ++ [⟨n, [], []⟩] }) ts
        else parseTags (.method ifs cur ⟨n, [], []⟩) ts
      | none => none
    else none
  | .method ifs cur m, t :: ts =>
    if t.name = "method" ∧ t.closing = true then
      parseTags (.iface ifs { cur with methods := cur.methods ++ [m] }) ts
    else if t.name = "arg" ∧ t.selfClosing = true then
      match t.attr "type" with
      | some ty =>
        let a : ArgInfo := ⟨(t.attr "name").getD "", ty⟩
        match (t.attr "direction").getD "in" with
        | "in" => parseTags (.method ifs cur { m with in_args := m.in_args ++ [a] }) ts
        | "out" => parseTags (.method ifs cur { m with out_args := m.out_args ++ [a] }) ts
        | _ => none
      | none => none
    else none
  | .finished _, _ :: _ => none

/-- GLib `g_dbus_node_info_new_for_xml`, for the elements above. -/
def g_dbus_node_info_new_for_xml (xml : String) : Option NodeInfo :=
  match lexXml .text xml.data with
  | none => none
  | some ts => parseTags .start ts

/-- The value assigned to `introspection_data` in `on_app_activate` (line 175). -/
def introspection_data : Option NodeInfo := g_dbus_node_info_new_for_xml introspection_xml

/-- Signature of the body of a call of a method: its input types in a tuple. -/
def MethodInfo.inSignature (m : MethodInfo) : String :=
  "(" ++ String.join (m.in_args.map (fun a => a.signature)) ++ ")"

/-- Calls the primary makes to put its object on the session bus. -/
inductive BusAction where
  | g_bus_own_name (name : String)
  | g_dbus_connection_register_object (object_path : String)
      (interface_info : Option InterfaceInfo)
  deriving DecidableEq, Repr

/-- The callback `on_bus_acquired` (lines 108-118): the object is registered
under `dbus_object_path` with `introspection_data->interfaces[0]`. -/
def on_bus_acquired (data : Option NodeInfo) : List BusAction :=
  [.g_dbus_connection_register_object dbus_object_path
    (data.bind (fun d => d.interfaces.head?))]

/-- The D-Bus part of `on_app_activate` (lines 173-193): the introspection
data is read from `introspection_xml`, the well-known name is requested with
`g_bus_own_name`, and `on_bus_acquired` runs once the bus is there. -/
def on_app_activate_bus : List BusAction :=
  [.g_bus_own_name dbus_well_known_name] ++ on_bus_acquired introspection_data

/-- GLib's reading of the `timeout_msec` argument of `g_dbus_proxy_call_sync`. -/
inductive Timeout where
  /-- The argument is `G_MAXINT`: wait without limit. -/
  | infinite
  /-- The argument is `-1`: the default timeout of the proxy. -/
  | proxyDefault
  /-- Any other argument: that many milliseconds. -/
  | msec (n : Int)
  deriving DecidableEq, Repr

/-- The timeout a call is made with, from its `timeout_msec` argument. -/
def g_dbus_timeout (timeout_msec : Int) : Timeout :=
  if timeout_msec = 2147483647 then .infinite
  else if timeout_msec = -1 then .proxyDefault
  else .msec timeout_msec

/-! ## The instance guard and `main` (lines 199-285) -/

/-- The two commands of `lockf` used by `main`. -/
inductive LockCmd where
  | F_ULOCK
  | F_TLOCK
  deriving DecidableEq, Repr

/-- State of the lock on the fixed path: free (`none`) or held by a process. -/
abbrev LockState := Option Nat

/-- POSIX `lockf(fd, cmd, 0)` called by process `pid`: the return value and the
new lock state.  An invalid descriptor fails (`EBADF`).  `F_TLOCK` never waits:
it takes a free lock (or one the caller already holds) and fails when another
process holds it.  `F_ULOCK` releases what the caller holds. -/
def lockf (lock : LockState) (pid : Nat) (fd : Int) (cmd : LockCmd) : Int × LockState :=
  if fd < 0 then (-1, lock)
  else
    match cmd with
    | .F_TLOCK =>
      match lock with
      | none => (0, some pid)
      | some holder => if holder = pid then (0, some pid) else (-1, some holder)
    | .F_ULOCK =>
      match lock with
      | none => (0, none)
      | some holder => if holder = pid then (0, none) else (0, some holder)

/-- The branch of `main` a launch takes. -/
inductive Role where
  | Primary
  | Secondary
  deriving DecidableEq, Repr

/-- Calls `main` makes into the OS, GTK and GDBus, with what they answered. -/
inductive Action where
  | sysOpen (path : String) (ret : Int)
  | sysLockf (fd : Int) (cmd : LockCmd) (ret : Int)
  | sysClose (fd : Int)
  | g_application_run (status : Int)
  | g_dbus_connection_unregister_object
  | g_bus_unown_name
  | g_bus_get_sync (error : Option CStr)
  | g_dbus_proxy_new_sync (name object_path interface_name : String) (error : Option CStr)
  | g_dbus_proxy_call_sync (method_name : String) (parameters : GVariant) (timeout_msec : Int)
      (error : Option CStr)
  | g_print (format : String) (arg : CStr)
  | g_object_unref_proxy
  | g_object_unref_connection
  deriving DecidableEq, Repr

/-- What the outside world answers to one run of `main`. -/
structure World where
  /-- Process id of this launch. -/
  pid : Nat
  /-- State of the lock when `main` starts. -/
  lock : LockState
  /-- Return value of `open`: a descriptor, or `-1` when the path cannot be opened. -/
  openRet : Int
  /-- Return value of `g_application_run`. -/
  appStatus : Int
  /-- The `GError` message set by `g_bus_get_sync`, if it fails. -/
  busError : Option CStr
  /-- The `GError` message set by `g_dbus_proxy_new_sync`, if it fails. -/
  proxyError : Option CStr
  /-- The `GError` message set by `g_dbus_proxy_call_sync`, if it fails. -/
  callError : Option CStr

/-- Outcome of `main`: the exit status, the branch taken, the calls made in
order, and the lock state when `main` returns. -/
structure MainResult where
  status : Int
  role : Role
  trace : List Action
  lock : LockState
  deriving DecidableEq, Repr

/-- The path of the lock file (line 201). -/
def lockPath : String := "/tmp/apsshelldemo.pid"

/-- The function `main` (lines 199-285); `argc` is the length of `argv`. -/
def main (argv : List CStr) (w : World) : MainResult :=
  let argc := argv.length
  let fd := w.openRet
  let tried := lockf w.lock w.pid fd .F_TLOCK
  let t0 := [Action.sysOpen lockPath fd, Action.sysLockf fd .F_TLOCK tried.1]
  if tried.1 = 0 then
    let status := w.appStatus
    let unlocked := lockf tried.2 w.pid fd .F_ULOCK
    { status := status
      role := .Primary
      trace := t0 ++ [.g_application_run status, .g_bus_get_sync none,
        .g_dbus_connection_unregister_object, .g_bus_unown_name,
        .sysLockf fd .F_ULOCK unlocked.1, .sysClose fd]
      lock := unlocked.2 }
  else if argc < 2 then
    { status := 0, role := .Secondary, trace := t0, lock := tried.2 }
  else
    let t1 := t0 ++ [.g_bus_get_sync w.busError]
    match w.busError with
    | some message =>
      { status := 1, role := .Secondary
        trace := t1 ++ [.g_print "Failed to connect to the D-Bus: %s\n" message]
        lock := tried.2 }
    | none =>
      let t2 := t1 ++ [.g_dbus_proxy_new_sync dbus_well_known_name dbus_object_path
        dbus_interface_name w.proxyError]
      match w.proxyError with
      | some message =>
        { status := 1, role := .Secondary
          trace := t2 ++ [.g_print "Failed to create D-Bus proxy: %s\n" message]
          lock := tried.2 }
      | none =>
        let t3 := t2 ++ [.g_dbus_proxy_call_sync dbus_method_name
          (g_variant_new "(s)" (argv.getD 1 []) (by decide)) (-1) w.callError]
        match w.callError with
        | some message =>
          { status := 1, role := .Secondary
            trace := t3 ++ [.g_print "Failed to call D-Bus method: %s\n" message]
            lock := tried.2 }
        | none =>
          { status := 0, role := .Secondary
            trace := t3 ++ [.g_object_unref_proxy, .g_object_unref_connection]
            lock := tried.2 }

/-- The role decision at the head of `main` (lines 201-202) alone: the branch
taken and the lock state right after the attempt. -/
def main_guard (lock : LockState) (pid : Nat) (openRet : Int) : Role × LockState :=
  let tried := lockf lock pid openRet .F_TLOCK
  if tried.1 = 0 then (.Primary, tried.2) else (.Secondary, tried.2)

/-- Is the action a lock attempt (`lockf` with `F_TLOCK`)? -/
def Action.isLockAttempt : Action → Bool
  | .sysLockf _ .F_TLOCK _ => true
  | _ => false

/-- Is the action a connection to the session bus? -/
def Action.isBusGet : Action → Bool
  | .g_bus_get_sync _ => true
  | _ => false

/-- Is the action the creation of a proxy? -/
def Action.isProxyNew : Action → Bool
  | .g_dbus_proxy_new_sync _ _ _ _ => true
  | _ => false

/-- Is the action a method call through the proxy? -/
def Action.isProxyCall : Action → Bool
  | .g_dbus_proxy_call_sync _ _ _ _ => true
  | _ => false

/-- Did the step report an error (set its `GError`)? -/
def Action.reportsError : Action → Bool
  | .g_bus_get_sync (some _) => true
  | .g_dbus_proxy_new_sync _ _ _ (some _) => true
  | .g_dbus_proxy_call_sync _ _ _ (some _) => true
  | _ => false

/-! ## Several launches sharing the lock -/

/-- The processes of the program that are running, with the branch each took,
and the state of the lock. -/
structure Sys where
  lock : LockState
  running : List (Nat × Role)
  deriving DecidableEq, Repr

/-- No process runs and the lock is free. -/
def Sys.init : Sys := ⟨none, []⟩

/-- A new process `pid` starts `main` and decides its role. -/
def Sys.launch (s : Sys) (pid : Nat) (openRet : Int) : Sys :=
  let g := main_guard s.lock pid openRet
  ⟨g.2, (pid, g.1) :: s.running⟩

/-- Process `pid` ends: the lock is released if it holds it (the primary calls
`lockf(fd, F_ULOCK, 0)` before it returns, line 225). -/
def Sys.finish (s : Sys) (pid : Nat) : Sys :=
  ⟨if s.lock = some pid then none else s.lock, s.running.filter (fun pr => pr.1 ≠ pid)⟩

/-- States the system can reach from `Sys.init`: a launch is a new process. -/
inductive Reachable : Sys → Prop where
  | init : Reachable Sys.init
  | launch {s : Sys} (pid : Nat) (openRet : Int) :
      Reachable s → pid ∉ s.running.map Prod.fst → Reachable (s.launch pid openRet)
  | finish {s : Sys} (pid : Nat) : Reachable s → Reachable (s.finish pid)

/-- The processes that took the primary branch. -/
def Sys.primaries (s : Sys) : List Nat :=
  (s.running.filter (fun pr => pr.2 = Role.Primary)).map Prod.fst

/-- Is the action one of the three D-Bus steps of the secondary? -/
def Action.isStep (a : Action) : Bool :=
  a.isBusGet || a.isProxyNew || a.isProxyCall

/-- No D-Bus step follows a step that reported an error. -/
def noStepAfterError : List Action → Bool
  | [] => true
  | a :: rest =>
    (if a.reportsError then rest.all (fun b => !b.isStep) else true) && noStepAfterError rest

/-- The primary's side of a call made through the proxy: GDBus hands it to
`handle_method_call` (the `interface_vtable`, lines 80-86) with the method
name and the parameters of the call.  Other actions do not reach the handler. -/
def dispatch (a : Action) (invocation : Nat) (st : PrimaryState) : PrimaryState :=
  match a with
  | .g_dbus_proxy_call_sync method_name parameters _ _ =>
    handle_method_call (cstr method_name) parameters invocation st
  | _ => st

/-- The `timeout_msec` arguments of the calls in a trace. -/
def callTimeouts : List Action → List Int
  | [] => []
  | .g_dbus_proxy_call_sync _ _ timeout_msec _ :: rest => timeout_msec :: callTimeouts rest
  | _ :: rest => callTimeouts rest

/-- Of two launches, one took the primary branch and the other the secondary one. -/
def exactlyOnePrimary (r1 r2 : Role) : Prop :=
  (r1 = Role.Primary ∧ r2 = Role.Secondary) ∨ (r1 = Role.Secondary ∧ r2 = Role.Primary)

/-! # Theorems -/

/-! ## String comparison -/

theorem strcmp_eq_zero_iff (a b : CStr) : strcmp a b = 0 ↔ a = b := by
  induction a generalizing b with
  | nil => cases b <;> simp [strcmp]
  | cons x xs ih =>
    cases b with
    | nil => simp [strcmp]
    | cons y ys =>
      by_cases hxy : x = y
      · simp [strcmp, hxy, ih]
      · by_cases hlt : x < y <;> simp [strcmp, hxy, hlt]

theorem g_strcmp0_eq_zero_iff (a b : CStr) : g_strcmp0 (some a) (some b) = 0 ↔ a = b := by
  simp [g_strcmp0, strcmp_eq_zero_iff]

/-! ## The handler -/

theorem handle_method_call_label_of_forwarded (method_name message : CStr) (invocation : Nat)
    (st : PrimaryState) (hname : method_name = cstr dbus_method_name)
    (h1 : message ≠ cstr "Return Unregistered")
    (h2 : message ≠ cstr "Return Registered")
    (h3 : message ≠ cstr "Return Raw") :
    (handle_method_call method_name (GVariant.tupleS message) invocation st).label
      = message := by
  have hm : g_strcmp0 (some method_name) (some (cstr dbus_method_name)) = 0 :=
    (g_strcmp0_eq_zero_iff _ _).2 hname
  simp [handle_method_call, hm, g_variant_get, g_strcmp0_eq_zero_iff, h1, h2, h3,
    gtk_label_set_text, g_dbus_method_invocation_return_value]

theorem handle_method_call_returned (method_name : CStr) (parameters : GVariant)
    (invocation : Nat) (st : PrimaryState) :
    (handle_method_call method_name parameters invocation st).returned
      = st.returned ++ [(invocation, none)] := by
  simp only [handle_method_call, g_dbus_method_invocation_return_value, gtk_label_set_text]
  split_ifs <;> rfl

/-- C1: a call of `handle_method_call` with method name "doOAuth" and a message
that is none of "Return Unregistered", "Return Registered", "Return Raw" (byte
comparison, case-sensitive) leaves the label text equal to the message, byte
for byte. -/
theorem handle_method_call_forwards (message : CStr) (invocation : Nat) (st : PrimaryState)
    (h1 : message ≠ cstr "Return Unregistered")
    (h2 : message ≠ cstr "Return Registered")
    (h3 : message ≠ cstr "Return Raw") :
    (handle_method_call (cstr "doOAuth") (GVariant.tupleS message) invocation st).label
      = message := by
  exact handle_method_call_label_of_forwarded (cstr "doOAuth") message invocation st rfl h1 h2 h3

/-- Witness of C1: the messages "hello", "" and "return raw" are forwarded. -/
theorem handle_method_call_forwards_witness :
    (handle_method_call (cstr "doOAuth") (GVariant.tupleS (cstr "hello")) 0
        ⟨cstr "CLIENT ID:abc", []⟩).label = cstr "hello" ∧
    (handle_method_call (cstr "doOAuth") (GVariant.tupleS (cstr "")) 0
        ⟨cstr "CLIENT ID:abc", []⟩).label = cstr "" ∧
    (handle_method_call (cstr "doOAuth") (GVariant.tupleS (cstr "return raw")) 0
        ⟨cstr "CLIENT ID:abc", []⟩).label = cstr "return raw" :=
  ⟨handle_method_call_forwards _ 0 _ (by decide) (by decide) (by decide),
   handle_method_call_forwards _ 0 _ (by decide) (by decide) (by decide),
   handle_method_call_forwards _ 0 _ (by decide) (by decide) (by decide)⟩

/-- C2: a call of `handle_method_call` with method name "doOAuth" and message
"Return Raw", "Return Registered" or "Return Unregistered" leaves the label
text as it was, whatever it was. -/
theorem handle_method_call_reserved (message : CStr) (invocation : Nat) (st : PrimaryState)
    (h : message = cstr "Return Raw" ∨ message = cstr "Return Registered" ∨
      message = cstr "Return Unregistered") :
    (handle_method_call (cstr "doOAuth") (GVariant.tupleS message) invocation st).label
      = st.label := by
  have hm : g_strcmp0 (some (cstr "doOAuth")) (some (cstr dbus_method_name)) = 0 :=
    (g_strcmp0_eq_zero_iff _ _).2 rfl
  have h4 : message = cstr "Return Unregistered" ∨ message = cstr "Return Registered" ∨
      message = cstr "Return Raw" := by
    rcases h with h | h | h
    · exact Or.inr (Or.inr h)
    · exact Or.inr (Or.inl h)
    · exact Or.inl h
  simp only [handle_method_call, hm, g_variant_get, g_strcmp0_eq_zero_iff, if_true, h4,
    g_dbus_method_invocation_return_value]

/-- Witness of C2: "Return Raw" leaves the label "CLIENT ID:abc" in place. -/
theorem handle_method_call_reserved_witness :
    (handle_method_call (cstr "doOAuth") (GVariant.tupleS (cstr "Return Raw")) 7
        ⟨cstr "CLIENT ID:abc", []⟩).label = cstr "CLIENT ID:abc" :=
  handle_method_call_reserved (cstr "Return Raw") 7 ⟨cstr "CLIENT ID:abc", []⟩ (Or.inl rfl)

/-! ## Formatting -/

theorem vformat_authAddressFMT (id : CStr) :
    vformat authAddressFMT.data [id] = some
      (cstr "https://developer.api.autodesk.com/authentication/v2/authorize?response_type=code&client_id="
        ++ id ++
        cstr "&redirect_uri=apsshelldemo://oauth&scope=data:read%20data:create%20data:write") := by
  rfl

theorem vformat_client_id (v : CStr) :
    vformat "CLIENT ID:%s".data [v] = some (cstr "CLIENT ID:" ++ v) := by
  simp [vformat, cstr]

theorem sprintf_of_vformat (size : Nat) (fmt : String) (args : List CStr) (out : CStr)
    (h : vformat fmt.data args = some out) :
    sprintf size fmt args = if out.length + 1 ≤ size then some out else none := by
  unfold sprintf
  rw [h]

theorem snprintf_of_vformat (n : Nat) (fmt : String) (args : List CStr) (out : CStr)
    (h : vformat fmt.data args = some out) :
    snprintf n fmt args = some (out.take (n - 1)) := by
  unfold snprintf
  rw [h]
  rfl

theorem on_app_activate_label_unset :
    on_app_activate_label none
      = some (cstr "You need to set APS_CLIENT_ID in your environment variables.") := by
  decide

theorem on_app_activate_label_fits (v : CStr) (h : v.length ≤ 245) :
    on_app_activate_label (some v) = some (cstr "CLIENT ID:" ++ v) := by
  have hlen : (cstr "CLIENT ID:" ++ v).length + 1 ≤ 256 := by
    have : (cstr "CLIENT ID:").length = 10 := by decide
    rw [List.length_append, this]; omega
  show sprintf 256 "CLIENT ID:%s" [v] = _
  rw [sprintf_of_vformat _ _ _ _ (vformat_client_id v)]
  exact if_pos hlen

theorem on_app_activate_label_overflow (v : CStr) (h : 245 < v.length) :
    on_app_activate_label (some v) = none := by
  have hlen : ¬ (cstr "CLIENT ID:" ++ v).length + 1 ≤ 256 := by
    have : (cstr "CLIENT ID:").length = 10 := by decide
    rw [List.length_append, this]; omega
  show sprintf 256 "CLIENT ID:%s" [v] = _
  rw [sprintf_of_vformat _ _ _ _ (vformat_client_id v)]
  exact if_neg hlen

/-- C5, at the input where the code departs from it: with `APS_CLIENT_ID` set
to 246 bytes `a`, `sprintf` writes 257 bytes into `char buffer[256]`, so the
label text is not defined; shorter values and the unset case are as claimed. -/
theorem on_app_activate_label_long_client_id :
    on_app_activate_label (some (List.replicate 246 97)) = none ∧
    on_app_activate_label (some (List.replicate 245 97))
      = some (cstr "CLIENT ID:" ++ List.replicate 245 97) ∧
    on_app_activate_label (some (cstr "abc")) = some (cstr "CLIENT ID:abc") ∧
    on_app_activate_label (some (cstr "")) = some (cstr "CLIENT ID:") ∧
    on_app_activate_label none
      = some (cstr "You need to set APS_CLIENT_ID in your environment variables.") :=
  ⟨on_app_activate_label_overflow _ (by rw [List.length_replicate]; decide),
   on_app_activate_label_fits _ (by rw [List.length_replicate]),
   on_app_activate_label_fits _ (by decide),
   on_app_activate_label_fits _ (by decide),
   on_app_activate_label_unset⟩

/-- C8: the URI `on_button_clicked` hands to the browser is the first 1023
bytes of the authorization URL with the value of `APS_CLIENT_ID` (the empty
string when unset) as `client_id` and a single `%` in each `%20`; and it is the
whole URL whenever that is at most 1023 bytes long. -/
theorem on_button_clicked_url (getenv : Option CStr) :
    on_button_clicked getenv = some
      ((cstr "https://developer.api.autodesk.com/authentication/v2/authorize?response_type=code&client_id="
        ++ getenv.getD (cstr "") ++
        cstr "&redirect_uri=apsshelldemo://oauth&scope=data:read%20data:create%20data:write").take
          1023) ∧
    ((cstr "https://developer.api.autodesk.com/authentication/v2/authorize?response_type=code&client_id="
        ++ getenv.getD (cstr "") ++
        cstr "&redirect_uri=apsshelldemo://oauth&scope=data:read%20data:create%20data:write").length
          ≤ 1023 →
      on_button_clicked getenv = some
        (cstr "https://developer.api.autodesk.com/authentication/v2/authorize?response_type=code&client_id="
          ++ getenv.getD (cstr "") ++
          cstr "&redirect_uri=apsshelldemo://oauth&scope=data:read%20data:create%20data:write")) := by
  have h1 : on_button_clicked getenv = some
      ((cstr "https://developer.api.autodesk.com/authentication/v2/authorize?response_type=code&client_id="
        ++ getenv.getD (cstr "") ++
        cstr "&redirect_uri=apsshelldemo://oauth&scope=data:read%20data:create%20data:write").take
          1023) := by
    cases getenv with
    | none =>
      show snprintf 1024 authAddressFMT [empty] = _
      rw [snprintf_of_vformat _ _ _ _ (vformat_authAddressFMT empty)]
      rfl
    | some e =>
      show snprintf 1024 authAddressFMT [e] = _
      rw [snprintf_of_vformat _ _ _ _ (vformat_authAddressFMT e)]
      rfl
  refine ⟨h1, fun hlen => ?_⟩
  rw [h1, List.take_of_length_le hlen]

/-- Witness of C8: the URL for `APS_CLIENT_ID=abc`. -/
theorem on_button_clicked_url_witness :
    on_button_clicked (some (cstr "abc")) = some
      (cstr "https://developer.api.autodesk.com/authentication/v2/authorize?response_type=code&client_id=abc&redirect_uri=apsshelldemo://oauth&scope=data:read%20data:create%20data:write") :=
  (on_button_clicked_url (some (cstr "abc"))).2 (by decide)

/-! ## Introspection data -/

theorem introspection_data_eq :
    introspection_data
      = some ⟨[⟨"das.apsshelldemo", [⟨"doOAuth", [⟨"message", "s"⟩], []⟩]⟩]⟩ := by
  decide

/-! ## `main` -/

/-- C3: when the lock attempt fails and there is no argument (`argc < 2`),
`main` returns 0 from the secondary branch having only opened the lock file
and tried the lock: no bus connection, no proxy, no call. -/
theorem main_secondary_without_argument (argv : List CStr) (w : World)
    (hlock : (lockf w.lock w.pid w.openRet .F_TLOCK).1 ≠ 0) (harg : argv.length < 2) :
    (main argv w).status = 0 ∧
    (main argv w).role = .Secondary ∧
    (main argv w).trace = [Action.sysOpen "/tmp/apsshelldemo.pid" w.openRet,
      Action.sysLockf w.openRet .F_TLOCK (lockf w.lock w.pid w.openRet .F_TLOCK).1] ∧
    (∀ a ∈ (main argv w).trace, a.isStep = false) := by
  have hm : main argv w = ⟨0, .Secondary, [Action.sysOpen lockPath w.openRet,
      Action.sysLockf w.openRet .F_TLOCK (lockf w.lock w.pid w.openRet .F_TLOCK).1],
      (lockf w.lock w.pid w.openRet .F_TLOCK).2⟩ := by
    simp only [main, hlock, harg, if_false, if_true]
  rw [hm]
  refine ⟨rfl, rfl, rfl, ?_⟩
  intro a ha
  simp only [List.mem_cons, List.mem_singleton, List.not_mem_nil, or_false] at ha
  rcases ha with rfl | rfl <;> rfl

/-- Witness of C3: a launch without argument while process 1 holds the lock. -/
theorem main_secondary_without_argument_witness :
    (main [cstr "app"] ⟨2, some 1, 3, 0, none, none, none⟩).status = 0 ∧
    (main [cstr "app"] ⟨2, some 1, 3, 0, none, none, none⟩).trace
      = [Action.sysOpen "/tmp/apsshelldemo.pid" 3, Action.sysLockf 3 .F_TLOCK (-1)] :=
  ⟨(main_secondary_without_argument [cstr "app"] ⟨2, some 1, 3, 0, none, none, none⟩
      (by decide) (by decide)).1,
   (main_secondary_without_argument [cstr "app"] ⟨2, some 1, 3, 0, none, none, none⟩
      (by decide) (by decide)).2.2.1⟩

/-- C6, at the input where the code departs from it: when `open` fails (returns
-1) `main` does not stop; `lockf` on the invalid descriptor fails, so `main`
takes the secondary branch: without argument it returns 0, with an argument it
forwards `argv[1]` over the bus and returns 0. -/
theorem main_open_failure_is_secondary :
    main [cstr "app"] ⟨1, none, -1, 0, none, none, none⟩
      = ⟨0, .Secondary,
          [Action.sysOpen "/tmp/apsshelldemo.pid" (-1), Action.sysLockf (-1) .F_TLOCK (-1)],
          none⟩ ∧
    main [cstr "app", cstr "code"] ⟨1, none, -1, 0, none, none, none⟩
      = ⟨0, .Secondary,
          [Action.sysOpen "/tmp/apsshelldemo.pid" (-1), Action.sysLockf (-1) .F_TLOCK (-1),
           Action.g_bus_get_sync none,
           Action.g_dbus_proxy_new_sync "das.apshelldemo.dbusserver" "/das/apsshelldemo/object"
             "das.apsshelldemo" none,
           Action.g_dbus_proxy_call_sync "doOAuth" (GVariant.tupleS (cstr "code")) (-1) none,
           Action.g_object_unref_proxy, Action.g_object_unref_connection],
          none⟩ := by
  constructor <;> decide

/-! ## Forwarding `argv[1]` -/

theorem g_variant_new_of_valid (format : String) (str : CStr)
    (h : formatTypeString format = "(s)") (hv : g_utf8_validate str = true) :
    g_variant_new format str h = GVariant.tupleS str := by
  simp [g_variant_new, hv]

theorem g_variant_new_eq_tuple (format : String) (str : CStr)
    (h : formatTypeString format = "(s)") :
    ∃ payload, g_variant_new format str h = GVariant.tupleS payload ∧
      (g_utf8_validate str = true → payload = str) := by
  by_cases hv : g_utf8_validate str = true
  · exact ⟨str, g_variant_new_of_valid format str h hv, fun _ => rfl⟩
  · exact ⟨cstr "[Invalid UTF-8]", by simp [g_variant_new, hv], fun h2 => absurd h2 hv⟩

theorem main_forwarding_trace (argv : List CStr) (w : World)
    (hlock : (lockf w.lock w.pid w.openRet .F_TLOCK).1 ≠ 0) (harg : 2 ≤ argv.length)
    (hbus : w.busError = none) (hproxy : w.proxyError = none) :
    (main argv w).trace.filter Action.isProxyNew
      = [Action.g_dbus_proxy_new_sync dbus_well_known_name dbus_object_path
          dbus_interface_name none] ∧
    (main argv w).trace.filter Action.isProxyCall
      = [Action.g_dbus_proxy_call_sync dbus_method_name
          (g_variant_new "(s)" (argv.get ⟨1, harg⟩) (by decide)) (-1) w.callError] ∧
    callTimeouts (main argv w).trace = [-1] := by
  have harg2 : ¬ argv.length < 2 := by omega
  have hlt : 1 < argv.length := harg
  have hget : argv[1]?.getD [] = argv[1] := by
    rw [List.getElem?_eq_getElem hlt]
    rfl
  rcases hc : w.callError with _ | ec
  · simp [main, hlock, harg2, hbus, hproxy, hc, hget, Action.isProxyNew, Action.isProxyCall,
      callTimeouts, List.filter_cons]
  · simp [main, hlock, harg2, hbus, hproxy, hc, hget, Action.isProxyNew, Action.isProxyCall,
      callTimeouts, List.filter_cons]

/-- C4 (amended): for a secondary started with an argument, the exit status is
1 exactly when one of the three steps (bus connection, proxy creation, the
call) reports an error and 0 otherwise; each step is attempted at most once; no
step follows a failed one; and on success exactly one call is made, `doOAuth`
with a single string, which is `argv[1]` whenever `argv[1]` is valid UTF-8. -/
theorem main_secondary_with_argument (argv : List CStr) (w : World)
    (hlock : (lockf w.lock w.pid w.openRet .F_TLOCK).1 ≠ 0) (harg : 2 ≤ argv.length) :
    (main argv w).role = .Secondary ∧
    ((main argv w).status = 1 ↔ ∃ a ∈ (main argv w).trace, a.reportsError = true) ∧
    ((main argv w).status = 1 ↔
      (w.busError.isSome ∨ w.proxyError.isSome ∨ w.callError.isSome)) ∧
    ((main argv w).status ≠ 1 → (main argv w).status = 0) ∧
    (main argv w).trace.countP Action.isBusGet = 1 ∧
    (main argv w).trace.countP Action.isProxyNew ≤ 1 ∧
    (main argv w).trace.countP Action.isProxyCall ≤ 1 ∧
    noStepAfterError (main argv w).trace = true ∧
    ((main argv w).status = 0 →
      ∃ payload : CStr,
        (main argv w).trace.filter Action.isProxyCall
          = [Action.g_dbus_proxy_call_sync "doOAuth" (GVariant.tupleS payload) (-1) none] ∧
        (g_utf8_validate (argv.get ⟨1, harg⟩) = true → payload = argv.get ⟨1, harg⟩)) := by
  have harg2 : ¬ argv.length < 2 := by omega
  rcases hb : w.busError with _ | eb
  · rcases hp : w.proxyError with _ | ep
    · have hfw := (main_forwarding_trace argv w hlock harg hb hp).2.1
      rcases hc : w.callError with _ | ec
      · refine ⟨?_, ?_, ?_, ?_, ?_, ?_, ?_, ?_, ?_⟩
        · simp [main, hlock, harg2, hb, hp, hc]
        · simp [main, hlock, harg2, hb, hp, hc, Action.reportsError]
        · simp [main, hlock, harg2, hb, hp, hc]
        · simp [main, hlock, harg2, hb, hp, hc]
        · simp [main, hlock, harg2, hb, hp, hc, Action.isBusGet, List.countP_cons]
        · simp [main, hlock, harg2, hb, hp, hc, Action.isProxyNew, List.countP_cons]
        · simp [main, hlock, harg2, hb, hp, hc, Action.isProxyCall, List.countP_cons]
        · simp [main, hlock, harg2, hb, hp, hc, noStepAfterError, Action.reportsError,
            Action.isStep, Action.isBusGet, Action.isProxyNew, Action.isProxyCall]
        · intro _
          obtain ⟨payload, hpay, hval⟩ :=
            g_variant_new_eq_tuple "(s)" (argv.get ⟨1, harg⟩) (by decide)
          refine ⟨payload, ?_, hval⟩
          rw [hfw, hpay, hc]
          rfl
      · simp [main, hlock, harg2, hb, hp, hc, Action.reportsError, Action.isBusGet,
          Action.isProxyNew, Action.isProxyCall, noStepAfterError, Action.isStep,
          List.countP_cons]
    · simp [main, hlock, harg2, hb, hp, Action.reportsError, Action.isBusGet,
        Action.isProxyNew, Action.isProxyCall, noStepAfterError, Action.isStep,
        List.countP_cons]
  · simp [main, hlock, harg2, hb, Action.reportsError, Action.isBusGet,
      Action.isProxyNew, Action.isProxyCall, noStepAfterError, Action.isStep,
      List.countP_cons]

/-- Witness of C4: a secondary forwarding "code" with every step succeeding. -/
theorem main_secondary_with_argument_witness :
    (main [cstr "app", cstr "code"] ⟨2, some 1, 3, 0, none, none, none⟩).status = 0 ∧
    ∃ payload : CStr,
      (main [cstr "app", cstr "code"] ⟨2, some 1, 3, 0, none, none, none⟩).trace.filter
          Action.isProxyCall
        = [Action.g_dbus_proxy_call_sync "doOAuth" (GVariant.tupleS payload) (-1) none] ∧
      (g_utf8_validate (cstr "code") = true → payload = cstr "code") :=
  ⟨(main_secondary_with_argument [cstr "app", cstr "code"]
      ⟨2, some 1, 3, 0, none, none, none⟩ (by decide) (by decide)).2.2.2.1 (by decide),
   (main_secondary_with_argument [cstr "app", cstr "code"]
      ⟨2, some 1, 3, 0, none, none, none⟩ (by decide) (by decide)).2.2.2.2.2.2.2.2 (by decide)⟩

/-- Counterexample to C4 as stated: started with the one-byte argument `0xFF`,
which is not valid UTF-8, the secondary succeeds (status 0) and its one call
carries the text `[Invalid UTF-8]`, not `argv[1]`. -/
theorem main_forwards_placeholder :
    (main [cstr "app", [0xFF]] ⟨2, some 1, 3, 0, none, none, none⟩).status = 0 ∧
    (main [cstr "app", [0xFF]] ⟨2, some 1, 3, 0, none, none, none⟩).trace.filter
        Action.isProxyCall
      = [Action.g_dbus_proxy_call_sync "doOAuth" (GVariant.tupleS (cstr "[Invalid UTF-8]"))
          (-1) none] ∧
    (main [cstr "app", [0xFF]] ⟨2, some 1, 3, 0, none, none, none⟩).trace.filter
        Action.isProxyCall
      ≠ [Action.g_dbus_proxy_call_sync "doOAuth" (GVariant.tupleS [0xFF]) (-1) none] := by
  refine ⟨by decide, by decide, by decide⟩

/-! ## The call and its answer -/

/-- C9 (amended): every invocation of `handle_method_call` returns exactly one
value on the invocation, the empty (NULL) one, whatever the method name and
the message (forwarded, reserved, or another method); for a method name other
than "doOAuth" the label text is left as it was.  The secondary makes its call
with `timeout_msec = -1`, the default timeout of the proxy and not an
unlimited wait; when that call is dispatched to the handler it gets exactly
one answer, also when its message is dropped. -/
theorem handle_method_call_replies_once (method_name : CStr) (parameters : GVariant)
    (invocation : Nat) (st : PrimaryState) :
    (handle_method_call method_name parameters invocation st).returned
        = st.returned ++ [(invocation, none)] ∧
    (method_name ≠ cstr "doOAuth" →
      (handle_method_call method_name parameters invocation st).label = st.label) ∧
    (∀ (argv : List CStr) (w : World),
      (lockf w.lock w.pid w.openRet .F_TLOCK).1 ≠ 0 → 2 ≤ argv.length →
      w.busError = none → w.proxyError = none →
      callTimeouts (main argv w).trace = [-1] ∧
      g_dbus_timeout (-1) = Timeout.proxyDefault ∧
      ∃ a, (main argv w).trace.filter Action.isProxyCall = [a] ∧
        (dispatch a invocation st).returned = st.returned ++ [(invocation, none)]) := by
  refine ⟨handle_method_call_returned _ _ _ _, ?_, ?_⟩
  · intro hne
    have hm : ¬ g_strcmp0 (some method_name) (some (cstr dbus_method_name)) = 0 := by
      rw [g_strcmp0_eq_zero_iff]; exact hne
    simp only [handle_method_call, hm, if_false, g_dbus_method_invocation_return_value]
  · intro argv w hlock harg hbus hproxy
    obtain ⟨_, hcall, htime⟩ := main_forwarding_trace argv w hlock harg hbus hproxy
    exact ⟨htime, by decide, _, hcall, handle_method_call_returned _ _ _ _⟩

/-- Witness of C9: a call of a method "other" is answered once and leaves the
label; the call of a secondary started with "Return Raw" has timeout -1. -/
theorem handle_method_call_replies_once_witness :
    (handle_method_call (cstr "other") (GVariant.tupleS (cstr "hello")) 4
        ⟨cstr "CLIENT ID:abc", []⟩).returned = [(4, none)] ∧
    (handle_method_call (cstr "other") (GVariant.tupleS (cstr "hello")) 4
        ⟨cstr "CLIENT ID:abc", []⟩).label = cstr "CLIENT ID:abc" ∧
    callTimeouts (main [cstr "app", cstr "Return Raw"]
        ⟨2, some 1, 3, 0, none, none, none⟩).trace = [-1] :=
  ⟨(handle_method_call_replies_once (cstr "other") (GVariant.tupleS (cstr "hello")) 4
      ⟨cstr "CLIENT ID:abc", []⟩).1,
   (handle_method_call_replies_once (cstr "other") (GVariant.tupleS (cstr "hello")) 4
      ⟨cstr "CLIENT ID:abc", []⟩).2.1 (by decide),
   ((handle_method_call_replies_once (cstr "other") (GVariant.tupleS (cstr "hello")) 4
      ⟨cstr "CLIENT ID:abc", []⟩).2.2 [cstr "app", cstr "Return Raw"]
      ⟨2, some 1, 3, 0, none, none, none⟩ (by decide) (by decide) rfl rfl).1⟩

/-- Counterexample to C9 as stated: the call of the secondary is not made
without a timeout: its `timeout_msec` is -1, which is the default timeout of
the proxy and not the unlimited wait; and a call that reports "Timeout was
reached" ends the secondary with status 1 (lines 274-278). -/
theorem secondary_call_is_timed :
    callTimeouts (main [cstr "app", cstr "Return Raw"]
        ⟨2, some 1, 3, 0, none, none, none⟩).trace = [-1] ∧
    g_dbus_timeout (-1) = Timeout.proxyDefault ∧
    g_dbus_timeout (-1) ≠ Timeout.infinite ∧
    (main [cstr "app", cstr "Return Raw"]
        ⟨2, some 1, 3, 0, none, none, some (cstr "Timeout was reached")⟩).status = 1 := by
  refine ⟨by decide, by decide, by decide, by decide⟩

/-! ## Identifiers -/

theorem on_app_activate_bus_eq :
    on_app_activate_bus
      = [BusAction.g_bus_own_name "das.apshelldemo.dbusserver",
         BusAction.g_dbus_connection_register_object "/das/apsshelldemo/object"
          (some ⟨"das.apsshelldemo", [⟨"doOAuth", [⟨"message", "s"⟩], []⟩]⟩)] := by
  decide

/-- C10: a secondary that reaches the bus gives the proxy the name the primary
owns and the object path the primary registers, and the interface name of the
interface registered from `introspection_xml`; that interface declares one
method, whose name is the method the secondary calls, with one input argument
of type `s` and no output; the tuple the secondary sends has that input type
`(s)`, the handler reads its string with `(&s)`, and dispatched to the handler
the call is taken as `doOAuth`: the label becomes the string sent unless it is
one of the three reserved strings. -/
theorem identifiers_agree (argv : List CStr) (w : World)
    (hlock : (lockf w.lock w.pid w.openRet .F_TLOCK).1 ≠ 0) (harg : 2 ≤ argv.length)
    (hbus : w.busError = none) (hproxy : w.proxyError = none) :
    ∃ (name path : String) (iface : InterfaceInfo) (m : MethodInfo) (sent : CStr),
      on_app_activate_bus = [BusAction.g_bus_own_name name,
        BusAction.g_dbus_connection_register_object path (some iface)] ∧
      (main argv w).trace.filter Action.isProxyNew
        = [Action.g_dbus_proxy_new_sync name path iface.name none] ∧
      iface.methods = [m] ∧
      (main argv w).trace.filter Action.isProxyCall
        = [Action.g_dbus_proxy_call_sync m.name (GVariant.tupleS sent) (-1) w.callError] ∧
      m.in_args.map (fun a => a.signature) = ["s"] ∧
      m.out_args = [] ∧
      (GVariant.tupleS sent).typeString = m.inSignature ∧
      (∀ h, g_variant_get (GVariant.tupleS sent) "(&s)" h = sent) ∧
      (∀ (invocation : Nat) (st : PrimaryState),
        sent ≠ cstr "Return Unregistered" → sent ≠ cstr "Return Registered" →
        sent ≠ cstr "Return Raw" →
        (dispatch (Action.g_dbus_proxy_call_sync m.name (GVariant.tupleS sent) (-1)
          w.callError) invocation st).label = sent) := by
  obtain ⟨hnew, hcall, _⟩ := main_forwarding_trace argv w hlock harg hbus hproxy
  obtain ⟨sent, hsent, _⟩ := g_variant_new_eq_tuple "(s)" (argv.get ⟨1, harg⟩) (by decide)
  refine ⟨"das.apshelldemo.dbusserver", "/das/apsshelldemo/object",
    ⟨"das.apsshelldemo", [⟨"doOAuth", [⟨"message", "s"⟩], []⟩]⟩,
    ⟨"doOAuth", [⟨"message", "s"⟩], []⟩, sent, on_app_activate_bus_eq, ?_, rfl, ?_, ?_, rfl,
    ?_, ?_, ?_⟩
  · rw [hnew]
    rfl
  · rw [hcall, hsent]
    rfl
  · decide
  · show "(s)" = MethodInfo.inSignature ⟨"doOAuth", [⟨"message", "s"⟩], []⟩
    decide
  · intro h
    rfl
  · intro invocation st h1 h2 h3
    exact handle_method_call_label_of_forwarded _ sent invocation st rfl h1 h2 h3

/-- Witness of C10: a secondary forwarding "code" while process 1 is primary. -/
theorem identifiers_agree_witness :
    ∃ (name path : String) (iface : InterfaceInfo) (m : MethodInfo) (sent : CStr),
      on_app_activate_bus = [BusAction.g_bus_own_name name,
        BusAction.g_dbus_connection_register_object path (some iface)] ∧
      (main [cstr "app", cstr "code"] ⟨2, some 1, 3, 0, none, none, none⟩).trace.filter
          Action.isProxyNew
        = [Action.g_dbus_proxy_new_sync name path iface.name none] ∧
      iface.methods = [m] ∧
      (main [cstr "app", cstr "code"] ⟨2, some 1, 3, 0, none, none, none⟩).trace.filter
          Action.isProxyCall
        = [Action.g_dbus_proxy_call_sync m.name (GVariant.tupleS sent) (-1) none] := by
  obtain ⟨name, path, iface, m, sent, h1, h2, h3, h4, _⟩ :=
    identifiers_agree [cstr "app", cstr "code"] ⟨2, some 1, 3, 0, none, none, none⟩
      (by decide) (by decide) rfl rfl
  exact ⟨name, path, iface, m, sent, h1, h2, h3, h4⟩


/-! ## The instance guard -/

theorem main_guard_primary {lock : LockState} {pid : Nat} {fd : Int} {l : LockState}
    (h : main_guard lock pid fd = (Role.Primary, l)) :
    l = some pid ∧ 0 ≤ fd ∧ (lock = none ∨ lock = some pid) := by
  unfold main_guard lockf at h
  by_cases hfd : fd < 0
  · simp [hfd] at h
  · rcases lock with _ | holder
    · simp [hfd] at h
      exact ⟨h.symm, by omega, Or.inl rfl⟩
    · by_cases hh : holder = pid
      · simp [hfd, hh] at h
        exact ⟨h.symm, by omega, Or.inr (by rw [hh])⟩
      · simp [hfd, hh] at h

theorem main_guard_secondary {lock : LockState} {pid : Nat} {fd : Int} {l : LockState}
    (h : main_guard lock pid fd = (Role.Secondary, l)) : l = lock := by
  unfold main_guard lockf at h
  by_cases hfd : fd < 0
  · simp [hfd] at h
    exact h.symm
  · rcases lock with _ | holder
    · simp [hfd] at h
    · by_cases hh : holder = pid
      · simp [hfd, hh] at h
      · simp [hfd, hh] at h
        exact h.symm

theorem main_guard_free (pid : Nat) (fd : Int) (hfd : 0 ≤ fd) :
    main_guard none pid fd = (Role.Primary, some pid) := by
  have : ¬ fd < 0 := by omega
  simp [main_guard, lockf, this]

theorem main_guard_held (holder pid : Nat) (fd : Int) (hne : holder ≠ pid) :
    main_guard (some holder) pid fd = (Role.Secondary, some holder) := by
  by_cases hfd : fd < 0 <;> simp [main_guard, lockf, hfd, hne]

theorem main_role_eq_main_guard (argv : List CStr) (w : World) :
    (main argv w).role = (main_guard w.lock w.pid w.openRet).1 := by
  unfold main main_guard
  by_cases h : (lockf w.lock w.pid w.openRet .F_TLOCK).1 = 0
  · simp [h]
  · by_cases ha : argv.length < 2
    · simp [h, ha]
    · rcases hb : w.busError with _ | eb
      · rcases hp : w.proxyError with _ | ep
        · rcases hc : w.callError with _ | ec <;> simp [h, ha]
        · simp [h, ha]
      · simp [h, ha]

theorem main_one_lock_attempt (argv : List CStr) (w : World) :
    (main argv w).trace.countP Action.isLockAttempt = 1 := by
  unfold main
  by_cases h : (lockf w.lock w.pid w.openRet .F_TLOCK).1 = 0
  · simp [h, List.countP_cons, Action.isLockAttempt]
  · by_cases ha : argv.length < 2
    · simp [h, ha, List.countP_cons, Action.isLockAttempt]
    · rcases hb : w.busError with _ | eb
      · rcases hp : w.proxyError with _ | ep
        · rcases hc : w.callError with _ | ec <;>
            simp [h, ha, List.countP_cons, Action.isLockAttempt]
        · simp [h, ha, List.countP_cons, Action.isLockAttempt]
      · simp [h, ha, List.countP_cons, Action.isLockAttempt]

/-- The lock is held by exactly the running processes that took the primary
branch, and no process id runs twice. -/
theorem reachable_invariant {s : Sys} (hs : Reachable s) :
    (∀ p, s.lock = some p ↔ (p, Role.Primary) ∈ s.running) ∧
    (s.running.map Prod.fst).Nodup := by
  induction hs with
  | init => simp [Sys.init]
  | @launch s pid fd _ hfresh ih =>
    obtain ⟨ihl, ihn⟩ := ih
    have hnot : s.lock ≠ some pid := by
      intro hl
      exact hfresh (List.mem_map.2 ⟨(pid, Role.Primary), (ihl pid).1 hl, rfl⟩)
    refine ⟨?_, ?_⟩
    · intro p
      rcases hg : main_guard s.lock pid fd with ⟨r, l⟩
      cases r with
      | Primary =>
        obtain ⟨hl, _, hor⟩ := main_guard_primary hg
        have hfree : s.lock = none := by
          rcases hor with h | h
          · exact h
          · exact absurd h hnot
        simp only [Sys.launch, hg, hl, List.mem_cons, Option.some.injEq, Prod.mk.injEq]
        constructor
        · intro h
          exact Or.inl ⟨h.symm, trivial⟩
        · rintro (⟨h, _⟩ | h)
          · exact h.symm
          · have := (ihl p).2 h
            rw [hfree] at this
            exact absurd this (by simp)
      | Secondary =>
        have hl := main_guard_secondary hg
        simp only [Sys.launch, hg, hl, List.mem_cons, Prod.mk.injEq]
        constructor
        · intro h
          exact Or.inr ((ihl p).1 h)
        · rintro (⟨_, h⟩ | h)
          · exact absurd h (by decide)
          · exact (ihl p).2 h
    · simp only [Sys.launch, List.map_cons]
      exact List.nodup_cons.2 ⟨hfresh, ihn⟩
  | @finish s pid _ ih =>
    obtain ⟨ihl, ihn⟩ := ih
    refine ⟨?_, ?_⟩
    · intro p
      simp only [Sys.finish, List.mem_filter, decide_eq_true_eq]
      by_cases hl : s.lock = some pid
      · simp only [hl, if_true]
        constructor
        · intro h
          exact absurd h (by simp)
        · rintro ⟨hmem, hne⟩
          have := (ihl p).2 hmem
          rw [hl] at this
          exact absurd (Option.some.inj this).symm hne
      · simp only [hl, if_false]
        constructor
        · intro h
          refine ⟨(ihl p).1 h, ?_⟩
          intro hp
          apply hl
          rw [h]
          exact congrArg some hp
        · rintro ⟨hmem, _⟩
          exact (ihl p).2 hmem
    · simp only [Sys.finish]
      exact ihn.sublist (List.filter_sublist _ |>.map _)

theorem primaries_iff_lock {s : Sys} (hs : Reachable s) (p : Nat) :
    p ∈ s.primaries ↔ s.lock = some p := by
  rw [(reachable_invariant hs).1 p]
  unfold Sys.primaries
  constructor
  · intro h
    obtain ⟨⟨a, r⟩, hmem, rfl⟩ := List.mem_map.1 h
    simp only [List.mem_filter, decide_eq_true_eq] at hmem
    obtain ⟨hm, hr⟩ := hmem
    have hr2 : r = Role.Primary := hr
    subst hr2
    exact hm
  · intro h
    exact List.mem_map.2 ⟨(p, Role.Primary), by simp [List.mem_filter, h], rfl⟩

theorem primaries_length_le_one {s : Sys} (hs : Reachable s) : s.primaries.length ≤ 1 := by
  have hnd : s.primaries.Nodup := by
    unfold Sys.primaries
    exact (reachable_invariant hs).2.sublist (List.filter_sublist _ |>.map _)
  have hall : ∀ p, p ∈ s.primaries → s.lock = some p := fun p => (primaries_iff_lock hs p).1
  rcases hp : s.primaries with _ | ⟨a, _ | ⟨b, rest⟩⟩
  · simp
  · simp
  · exfalso
    rw [hp] at hnd hall
    have ha := hall a (by simp)
    have hb := hall b (by simp)
    have hab : a = b := Option.some.inj (ha.symm.trans hb)
    rw [hab] at hnd
    simp at hnd

/-- C7 (amended): the role decision in `main` is one `lockf` call with
`F_TLOCK` (which never waits); in every reachable state at most one running
process is primary and it is the holder of the lock; of two launches by
different processes with no release in between at most one takes the primary
branch; and when the lock is free before the first of them and both open the
lock file, the first takes the primary branch and the second the secondary. -/
theorem instance_guard (s : Sys) (hs : Reachable s) (p q : Nat) (fd1 fd2 : Int)
    (hpq : p ≠ q) :
    (∀ argv w, (main argv w).trace.countP Action.isLockAttempt = 1 ∧
      (main argv w).role = (main_guard w.lock w.pid w.openRet).1) ∧
    (s.primaries.length ≤ 1 ∧ ∀ x, x ∈ s.primaries ↔ s.lock = some x) ∧
    ¬ ((main_guard s.lock p fd1).1 = Role.Primary ∧
        (main_guard (main_guard s.lock p fd1).2 q fd2).1 = Role.Primary) ∧
    (s.lock = none → 0 ≤ fd1 → 0 ≤ fd2 →
      (main_guard s.lock p fd1).1 = Role.Primary ∧
      (main_guard (main_guard s.lock p fd1).2 q fd2).1 = Role.Secondary ∧
      exactlyOnePrimary (main_guard s.lock p fd1).1
        (main_guard (main_guard s.lock p fd1).2 q fd2).1) := by
  refine ⟨fun argv w => ⟨main_one_lock_attempt argv w, main_role_eq_main_guard argv w⟩,
    ⟨primaries_length_le_one hs, primaries_iff_lock hs⟩, ?_, ?_⟩
  · rintro ⟨h1, h2⟩
    rcases hg : main_guard s.lock p fd1 with ⟨r, l⟩
    rw [hg] at h1 h2
    simp only at h1 h2
    subst h1
    obtain ⟨hl, _, _⟩ := main_guard_primary hg
    rw [hl, main_guard_held p q fd2 hpq] at h2
    exact absurd h2 (by simp)
  · intro hfree h1 h2
    have e1 : main_guard s.lock p fd1 = (Role.Primary, some p) := by
      rw [hfree]
      exact main_guard_free p fd1 h1
    have e2 : main_guard (some p) q fd2 = (Role.Secondary, some p) :=
      main_guard_held p q fd2 hpq
    rw [e1]
    show _ ∧ (main_guard (some p) q fd2).1 = _ ∧
      exactlyOnePrimary _ (main_guard (some p) q fd2).1
    rw [e2]
    exact ⟨rfl, rfl, Or.inl ⟨rfl, rfl⟩⟩

/-- Witness of C7: two launches, by processes 1 and 2, from the initial state. -/
theorem instance_guard_witness :
    (main_guard Sys.init.lock 1 3).1 = Role.Primary ∧
    (main_guard (main_guard Sys.init.lock 1 3).2 2 3).1 = Role.Secondary :=
  ⟨((instance_guard Sys.init Reachable.init 1 2 3 3 (by decide)).2.2.2 rfl (by decide)
      (by decide)).1,
   ((instance_guard Sys.init Reachable.init 1 2 3 3 (by decide)).2.2.2 rfl (by decide)
      (by decide)).2.1⟩

/-- Counterexample to C7 as stated: while process 0 holds the lock (a reachable
state), the launches of processes 1 and 2, with no release in between, both
take the secondary branch, so it is not the case that exactly one of them is
primary. -/
theorem two_launches_both_secondary :
    Reachable (Sys.init.launch 0 3) ∧
    (main_guard (Sys.init.launch 0 3).lock 1 3).1 = Role.Secondary ∧
    (main_guard (main_guard (Sys.init.launch 0 3).lock 1 3).2 2 3).1 = Role.Secondary ∧
    ¬ exactlyOnePrimary (main_guard (Sys.init.launch 0 3).lock 1 3).1
        (main_guard (main_guard (Sys.init.launch 0 3).lock 1 3).2 2 3).1 := by
  refine ⟨Reachable.launch 0 3 Reachable.init (by simp [Sys.init]), by decide, by decide, ?_⟩
  unfold exactlyOnePrimary
  decide

end ApsShellDemo
